import Mathlib

/-!
Verification of the policy-impact simulation rule engine (a shallow
embedding of the simulation engine and the scenario comparator).

Numeric values are embedded as exact rationals (`ℚ`).  The engine's
parameter bag only ever feeds numeric values into the models, so the
parameter map is embedded as `String → Option ℚ`; JavaScript's
`x || d` defaulting idiom (which replaces both a missing key and the
falsy value `0` by the default) is embedded as `jsOr`.  A JavaScript
out-of-bounds array read (which yields `undefined` and lets `NaN`
propagate) is embedded as an `Option ℚ` valued lookup.
-/

namespace PolicySandbox

/-- JavaScript `v || d` for an optionally-present numeric value:
the default is taken when the key is absent or the value is `0`. -/
def jsOr (v : Option ℚ) (d : ℚ) : ℚ :=
  match v with
  | none => d
  | some x => if x = 0 then d else x

/-- JavaScript `Math.round` on a rational: round half toward plus infinity. -/
def jsRound (x : ℚ) : ℤ := ⌊x + 1/2⌋

-- ============================================
-- DATA MODEL
-- ============================================

/-- The `demographics` map read by the engine (`averageIncome`,
`permitEligibility`); each key may be absent. -/
structure Demographics where
  averageIncome : Option ℚ
  permitEligibility : Option ℚ
  deriving DecidableEq, Repr

/-- The `behaviorRules` map read by the engine. -/
structure BehaviorRules where
  incomeSensitivity : Option ℚ
  policyAwareness : Option ℚ
  averageRevenue : Option ℚ
  deriving DecidableEq, Repr

/-- A citizen group record; `demographics` and `behaviorRules` may be null. -/
structure CitizenGroup where
  name : String
  population : ℚ
  complianceRate : ℚ
  demographics : Option Demographics
  behaviorRules : Option BehaviorRules
  deriving DecidableEq, Repr

/-- A business category record; `sizeCategory` may be null. -/
structure BusinessCategory where
  name : String
  count : ℚ
  complianceRate : ℚ
  sizeCategory : Option String
  behaviorRules : Option BehaviorRules
  deriving DecidableEq, Repr

/-- Simulation configuration. -/
structure SimulationConfig where
  timeHorizon : ℕ
  includeSeasonality : Bool
  populationGrowth : ℚ
  economicGrowth : ℚ
  deriving DecidableEq, Repr

/-- The effective parameter map: parameter name to numeric value. -/
def Params : Type := String → Option ℚ

/-- One policy's ordered parameter entries together with its optional
override map (`Object.entries` order is the list order). -/
structure Contribution where
  params : List (String × ℚ)
  overrides : Option (List (String × ℚ))

/-- Full simulation input. -/
structure SimulationInput where
  policies : List Contribution
  citizenGroups : List CitizenGroup
  businessCategories : List BusinessCategory
  config : SimulationConfig

/-- Revenue block of the metrics. -/
structure Revenue where
  total : ℚ
  fromFines : ℚ
  fromPermits : ℚ
  fromTaxes : ℚ
  fromFees : ℚ
  breakdown : List (String × ℚ)
  deriving DecidableEq, Repr

/-- Compliance block of the metrics. -/
structure Compliance where
  overall : ℚ
  citizen : ℚ
  business : ℚ
  byCategory : List (String × ℚ)
  deriving DecidableEq, Repr

/-- Workload block of the metrics. -/
structure Workload where
  totalHours : ℚ
  inspections : ℤ
  permits : ℤ
  appeals : ℤ
  staffRequired : ℤ
  deriving DecidableEq, Repr

/-- Satisfaction block of the metrics. -/
structure Satisfaction where
  overall : ℚ
  citizen : ℚ
  business : ℚ
  byDemographic : List (String × ℚ)
  deriving DecidableEq, Repr

/-- One monthly projection entry.  `revenue` and `workload` are
`Option ℚ` because the seasonal factor lookup can be out of bounds
(JavaScript `undefined`, propagating `NaN`), embedded as `none`. -/
structure MonthlyProjection where
  month : ℕ
  revenue : Option ℚ
  compliance : ℚ
  workload : Option ℚ
  satisfaction : ℚ
  deriving DecidableEq, Repr

/-- The full metrics result of one engine run. -/
structure SimulationMetrics where
  revenue : Revenue
  compliance : Compliance
  workload : Workload
  satisfaction : Satisfaction
  monthlyProjections : List MonthlyProjection
  deriving DecidableEq, Repr

-- ============================================
-- PARAMETER AGGREGATION
-- ============================================

/-- Fold one ordinary parameter entry into the accumulator: a key that is
already present gets the pairwise running average `(existing + new) / 2`;
a fresh key is simply written. -/
def applyEntry (acc : Params) (e : String × ℚ) : Params :=
  fun key =>
    if key = e.1 then
      match acc e.1 with
      | some old => some ((old + e.2) / 2)
      | none => some e.2
    else acc key

/-- Fold one override entry into the accumulator: an unconditional write. -/
def applyOverride (acc : Params) (e : String × ℚ) : Params :=
  fun key => if key = e.1 then some e.2 else acc key

/-- Fold one contribution: its parameter entries in order, then its
override entries (if present) in order. -/
def applyContribution (acc : Params) (c : Contribution) : Params :=
  (c.overrides.getD []).foldl applyOverride (c.params.foldl applyEntry acc)

/-- `SimulationEngine.aggregateParameters`: fold all contributions in
order, starting from the empty map. -/
def aggregateParameters (cs : List Contribution) : Params :=
  cs.foldl applyContribution (fun _ => none)

/-- The last entry of an override list for a given key (JavaScript object
entry semantics: later writes for the same key win). -/
def lastEntry : List (String × ℚ) → String → Option ℚ
  | [], _ => none
  | e :: l, k =>
    match lastEntry l k with
    | some v => some v
    | none => if e.1 = k then some e.2 else none

/-- The value a contribution's override map assigns to a key, if any. -/
def lastOverride (c : Contribution) (k : String) : Option ℚ :=
  lastEntry (c.overrides.getD []) k

-- ============================================
-- HELPER METHODS OF THE ENGINE
-- ============================================

/-- `SimulationEngine.getDetectionRate`. -/
def getDetectionRate (p : Params) : ℚ :=
  min (9/10) (3/10 + min (4/10) (jsOr (p "inspectionFrequency") 0 / 25))

/-- `SimulationEngine.getPermitEligibility`. -/
def getPermitEligibility (g : CitizenGroup) : ℚ :=
  jsOr (g.demographics.bind Demographics.permitEligibility) (3/10)

/-- `SimulationEngine.getAverageIncome`. -/
def getAverageIncome (g : CitizenGroup) : ℚ :=
  jsOr (g.demographics.bind Demographics.averageIncome) 30000

/-- JavaScript `business.sizeCategory || 'small'` (null and the empty
string are falsy). -/
def effectiveSize (b : BusinessCategory) : String :=
  match b.sizeCategory with
  | none => "small"
  | some s => if s = "" then "small" else s

/-- `SimulationEngine.getBusinessMultiplier`: `sizeMultipliers[size] || 1`. -/
def getBusinessMultiplier (b : BusinessCategory) : ℚ :=
  if effectiveSize b = "small" then 1
  else if effectiveSize b = "medium" then 2
  else if effectiveSize b = "large" then 5
  else 1

/-- `SimulationEngine.getAverageBusinessRevenue`:
`behaviorRules?.averageRevenue || baseRevenue[size] || 100000`. -/
def getAverageBusinessRevenue (b : BusinessCategory) : ℚ :=
  jsOr (b.behaviorRules.bind BehaviorRules.averageRevenue)
    (if effectiveSize b = "small" then 100000
     else if effectiveSize b = "medium" then 500000
     else if effectiveSize b = "large" then 2000000
     else 100000)

/-- `SimulationEngine.getSeasonalityFactors`: the fixed 12-entry table. -/
def getSeasonalityFactors : List ℚ :=
  [85/100, 88/100, 95/100, 102/100, 108/100, 115/100,
   112/100, 110/100, 102/100, 95/100, 88/100, 1]

-- ============================================
-- REVENUE CALCULATION
-- ============================================

/-- `growthFactor = 1 + (economicGrowth/100) * (timeHorizon/12)`. -/
def growthFactor (cfg : SimulationConfig) : ℚ :=
  1 + (cfg.economicGrowth / 100) * ((cfg.timeHorizon : ℚ) / 12)

/-- Body of `SimulationEngine.calculateRevenue`, with the aggregated
parameter map made explicit. -/
def revenueCore (p : Params) (gs : List CitizenGroup)
    (bs : List BusinessCategory) (cfg : SimulationConfig) : Revenue :=
  let totalFines :=
    (gs.map (fun g =>
      (g.population * (1 - g.complianceRate)) * getDetectionRate p
        * jsOr (p "fineAmount") 0)).sum
    + (bs.map (fun b =>
      (b.count * (1 - b.complianceRate)) * getDetectionRate p
        * jsOr (p "fineAmount") 0 * getBusinessMultiplier b)).sum
  let totalPermits :=
    (gs.map (fun g =>
      (g.population * getPermitEligibility g) * jsOr (p "feeAmount") 0)).sum
    + (bs.map (fun b =>
      b.count * jsOr (p "feeAmount") 0 * getBusinessMultiplier b)).sum
  let totalTaxes :=
    (gs.map (fun g =>
      g.population * getAverageIncome g * (jsOr (p "taxRate") 0 / 100)
        * (cfg.timeHorizon : ℚ) / 12)).sum
    + (bs.map (fun b =>
      b.count * getAverageBusinessRevenue b * (jsOr (p "taxRate") 0 / 100)
        * (cfg.timeHorizon : ℚ) / 12)).sum
  let totalFees : ℚ := 0
  let gf := growthFactor cfg
  { total := (totalFines + totalPermits + totalTaxes + totalFees) * gf
    fromFines := totalFines * gf
    fromPermits := totalPermits * gf
    fromTaxes := totalTaxes * gf
    fromFees := totalFees * gf
    breakdown :=
      [("citizenFines", totalFines * (3/10) * gf),
       ("businessFines", totalFines * (7/10) * gf),
       ("citizenPermits", totalPermits * (4/10) * gf),
       ("businessPermits", totalPermits * (6/10) * gf)] }

/-- `SimulationEngine.calculateRevenue`. -/
def calculateRevenue (input : SimulationInput) : Revenue :=
  revenueCore (aggregateParameters input.policies)
    input.citizenGroups input.businessCategories input.config

-- ============================================
-- COMPLIANCE CALCULATION
-- ============================================

/-- Adjusted compliance of one citizen group. -/
def citizenAdjustedCompliance (p : Params) (g : CitizenGroup) : ℚ :=
  let fineImpact := min (1/10) (jsOr (p "fineAmount") 0 / 10000)
  let inspectionImpact := min (5/100) (jsOr (p "inspectionFrequency") 0 / 20)
  let permitImpact := -(min (2/100) ((jsOr (p "permitDuration") 365 - 365) / 3650))
  min 1 (max 0 (g.complianceRate + fineImpact + inspectionImpact + permitImpact))

/-- Adjusted compliance of one business category. -/
def businessAdjustedCompliance (p : Params) (b : BusinessCategory) : ℚ :=
  let fineImpact := min (15/100) (jsOr (p "fineAmount") 0 / 5000)
  let inspectionImpact := min (8/100) (jsOr (p "inspectionFrequency") 0 / 12)
  min 1 (max 0 (b.complianceRate + fineImpact + inspectionImpact))

/-- Body of `SimulationEngine.calculateCompliance`, with the aggregated
parameter map made explicit. -/
def complianceCore (p : Params) (gs : List CitizenGroup)
    (bs : List BusinessCategory) : Compliance :=
  let totalCitizenCompliance :=
    (gs.map (fun g => citizenAdjustedCompliance p g * g.population)).sum
  let totalCitizenPopulation := (gs.map (fun g => g.population)).sum
  let totalBusinessCompliance :=
    (bs.map (fun b => businessAdjustedCompliance p b * b.count)).sum
  let totalBusinessCount := (bs.map (fun b => b.count)).sum
  let citizenCompliance :=
    if 0 < totalCitizenPopulation
    then totalCitizenCompliance / totalCitizenPopulation else 0
  let businessCompliance :=
    if 0 < totalBusinessCount
    then totalBusinessCompliance / totalBusinessCount else 0
  { overall := (citizenCompliance + businessCompliance) / 2
    citizen := citizenCompliance
    business := businessCompliance
    byCategory :=
      gs.map (fun g => (g.name, citizenAdjustedCompliance p g))
        ++ bs.map (fun b => (b.name, businessAdjustedCompliance p b)) }

/-- `SimulationEngine.calculateCompliance`. -/
def calculateCompliance (input : SimulationInput) : Compliance :=
  complianceCore (aggregateParameters input.policies)
    input.citizenGroups input.businessCategories

-- ============================================
-- WORKLOAD CALCULATION
-- ============================================

/-- The guarded embedding of the permit-renewal expression
`12 / ((params.permitDuration || 365) / 30)`: `none` when the divisor
is zero (the JavaScript division by zero the specification discusses). -/
def permitRenewalsPerYear (p : Params) : Option ℚ :=
  let d := jsOr (p "permitDuration") 365
  if d / 30 = 0 then none else some (12 / (d / 30))

/-- Body of `SimulationEngine.calculateWorkload`, with the aggregated
parameter map and the previously computed overall compliance explicit
(the engine runs the compliance stage first and reads its result here).
The permit-renewal division is total rational division; the guarded
variant `permitRenewalsPerYear` is proved never to take its error
branch, so the two agree everywhere. -/
def workloadCore (p : Params) (gs : List CitizenGroup)
    (bs : List BusinessCategory) (cfg : SimulationConfig)
    (overallCompliance : ℚ) : Workload :=
  let totalInspections :=
    (gs.map (fun g =>
      g.population * (jsOr (p "inspectionFrequency") 0 / 12)
        * (cfg.timeHorizon : ℚ))).sum
    + (bs.map (fun b =>
      b.count * (jsOr (p "inspectionFrequency") 0 / 12)
        * (cfg.timeHorizon : ℚ) * 2)).sum
  let totalPopulation := (gs.map (fun g => g.population)).sum
  let totalBusinesses := (bs.map (fun b => b.count)).sum
  let renewals := 12 / (jsOr (p "permitDuration") 365 / 30)
  let totalPermits :=
    (totalPopulation * (1/10) + totalBusinesses) * renewals
      * ((cfg.timeHorizon : ℚ) / 12)
  let nonCompliantRate := 1 - overallCompliance
  let appealRate := nonCompliantRate * (1/10) * (jsOr (p "fineAmount") 0 / 500)
  let totalAppeals := (totalPopulation + totalBusinesses) * appealRate
  let totalHours := totalInspections * 2 + totalPermits * (1/2) + totalAppeals * 4
  { totalHours := totalHours
    inspections := jsRound totalInspections
    permits := jsRound totalPermits
    appeals := jsRound totalAppeals
    staffRequired := ⌈totalHours / (160 * ((cfg.timeHorizon : ℚ) / 12))⌉ }

/-- `SimulationEngine.calculateWorkload`. -/
def calculateWorkload (input : SimulationInput) (overallCompliance : ℚ) : Workload :=
  workloadCore (aggregateParameters input.policies)
    input.citizenGroups input.businessCategories input.config overallCompliance

-- ============================================
-- SATISFACTION CALCULATION
-- ============================================

/-- The shared satisfaction impact terms (fine, permit, tax, grace). -/
def fineImpactSat (p : Params) : ℚ := -(min 20 (jsOr (p "fineAmount") 0 / 50))

/-- Permit impact term of the satisfaction model. -/
def permitImpactSat (p : Params) : ℚ :=
  min 10 ((jsOr (p "permitDuration") 365 - 180) / 50)

/-- Tax impact term of the satisfaction model. -/
def taxImpactSat (p : Params) : ℚ := -(min 15 (jsOr (p "taxRate") 0 / 2))

/-- Grace-period impact term of the satisfaction model. -/
def graceImpactSat (p : Params) : ℚ := min 5 (jsOr (p "gracePeriod") 0 / 10)

/-- Satisfaction of one citizen group. -/
def citizenSatisfaction (p : Params) (g : CitizenGroup) : ℚ :=
  let incomeModifier := jsOr (g.behaviorRules.bind BehaviorRules.incomeSensitivity) 1
  let awarenessModifier := jsOr (g.behaviorRules.bind BehaviorRules.policyAwareness) 1
  min 100 (max 0
    (70 + fineImpactSat p * incomeModifier + permitImpactSat p + taxImpactSat p
      + graceImpactSat p * awarenessModifier))

/-- `business.sizeCategory === 'large' ? 0.8 : ... === 'small' ? 1.2 : 1`
(the raw field, no default substitution). -/
def satSizeModifier (b : BusinessCategory) : ℚ :=
  if b.sizeCategory = some "large" then 8/10
  else if b.sizeCategory = some "small" then 12/10
  else 1

/-- Satisfaction of one business category. -/
def businessSatisfaction (p : Params) (b : BusinessCategory) : ℚ :=
  let awarenessModifier := jsOr (b.behaviorRules.bind BehaviorRules.policyAwareness) 1
  min 100 (max 0
    (70 + fineImpactSat p * (1/2) + permitImpactSat p * (3/2)
      + (taxImpactSat p * (12/10)) * satSizeModifier b * awarenessModifier))

/-- Body of `SimulationEngine.calculateSatisfaction`, with the aggregated
parameter map made explicit. -/
def satisfactionCore (p : Params) (gs : List CitizenGroup)
    (bs : List BusinessCategory) : Satisfaction :=
  let totalCitizenSatisfaction :=
    (gs.map (fun g => citizenSatisfaction p g * g.population)).sum
  let totalCitizenPopulation := (gs.map (fun g => g.population)).sum
  let totalBusinessSatisfaction :=
    (bs.map (fun b => businessSatisfaction p b * b.count)).sum
  let totalBusinessCount := (bs.map (fun b => b.count)).sum
  let citizenSat :=
    if 0 < totalCitizenPopulation
    then totalCitizenSatisfaction / totalCitizenPopulation else 70
  let businessSat :=
    if 0 < totalBusinessCount
    then totalBusinessSatisfaction / totalBusinessCount else 70
  { overall := (citizenSat + businessSat) / 2
    citizen := citizenSat
    business := businessSat
    byDemographic :=
      gs.map (fun g => (g.name, citizenSatisfaction p g))
        ++ bs.map (fun b => (b.name, businessSatisfaction p b)) }

/-- `SimulationEngine.calculateSatisfaction`. -/
def calculateSatisfaction (input : SimulationInput) : Satisfaction :=
  satisfactionCore (aggregateParameters input.policies)
    input.citizenGroups input.businessCategories

-- ============================================
-- MONTHLY PROJECTIONS
-- ============================================

/-- The seasonal factor applied in month `month` (1-based):
`seasonality[month - 1]` when the flag is set (an out-of-bounds read is
JavaScript `undefined`, embedded as `none`), else `1`. -/
def seasonFactor (cfg : SimulationConfig) (month : ℕ) : Option ℚ :=
  if cfg.includeSeasonality then getSeasonalityFactors.get? (month - 1)
  else some 1

/-- `SimulationEngine.generateMonthlyProjections`.  `rand` is the stream
of `Math.random()` draws in `[0,1)`; month `m` (1-based) consumes draws
`2*(m-1)` (compliance jitter) and `2*(m-1)+1` (satisfaction jitter). -/
def generateMonthlyProjections (cfg : SimulationConfig)
    (rev : Revenue) (comp : Compliance) (work : Workload)
    (sat : Satisfaction) (rand : ℕ → ℚ) : List MonthlyProjection :=
  (List.range cfg.timeHorizon).map (fun i =>
    let month := i + 1
    let sf := seasonFactor cfg month
    let gf := 1 + (cfg.economicGrowth / 100) * ((month : ℚ) / 12)
    { month := month
      revenue := sf.map (fun s => (rev.total / (cfg.timeHorizon : ℚ)) * s * gf)
      compliance := comp.overall * (1 + (rand (2 * i) * (2/100) - 1/100))
      workload := sf.map (fun s => (work.totalHours / (cfg.timeHorizon : ℚ)) * s)
      satisfaction := sat.overall * (1 + (rand (2 * i + 1) * (2/100) - 1/100)) })

-- ============================================
-- ENGINE RUN AND SCENARIO COMPARISON
-- ============================================

/-- `SimulationEngine.run`: the five stages in order (revenue,
compliance, workload — which reads the compliance result — satisfaction,
monthly projections). -/
def runEngine (input : SimulationInput) (rand : ℕ → ℚ) : SimulationMetrics :=
  let rev := calculateRevenue input
  let comp := calculateCompliance input
  let work := calculateWorkload input comp.overall
  let sat := calculateSatisfaction input
  { revenue := rev
    compliance := comp
    workload := work
    satisfaction := sat
    monthlyProjections :=
      generateMonthlyProjections input.config rev comp work sat rand }

/-- One named scenario handed to the comparator. -/
structure ScenarioEntry where
  id : String
  name : String
  metrics : SimulationMetrics
  deriving DecidableEq, Repr

/-- The four top-level KPI values (revenue, compliance, workload,
satisfaction). -/
structure KPIQuad where
  revenue : ℚ
  compliance : ℚ
  workload : ℚ
  satisfaction : ℚ
  deriving DecidableEq, Repr

/-- One scenario's comparison record. -/
structure ScenarioResult where
  id : String
  name : String
  metrics : SimulationMetrics
  delta : KPIQuad
  percentChange : KPIQuad
  deriving DecidableEq, Repr

/-- The comparator's full result. -/
structure ComparisonResult where
  baseline : SimulationMetrics
  scenarios : List ScenarioResult
  deriving DecidableEq, Repr

/-- `compareScenarios`: deltas and percent changes of the four top-level
KPIs against the baseline; a percent change is `0` whenever the baseline
value is not strictly positive (the source tests `baseline.value > 0`). -/
def compareScenarios (baseline : SimulationMetrics)
    (scenarios : List ScenarioEntry) : ComparisonResult :=
  { baseline := baseline
    scenarios := scenarios.map (fun s =>
      let revenueDelta := s.metrics.revenue.total - baseline.revenue.total
      let complianceDelta := s.metrics.compliance.overall - baseline.compliance.overall
      let workloadDelta := s.metrics.workload.totalHours - baseline.workload.totalHours
      let satisfactionDelta := s.metrics.satisfaction.overall - baseline.satisfaction.overall
      { id := s.id
        name := s.name
        metrics := s.metrics
        delta :=
          { revenue := revenueDelta
            compliance := complianceDelta
            workload := workloadDelta
            satisfaction := satisfactionDelta }
        percentChange :=
          { revenue :=
              if 0 < baseline.revenue.total
              then revenueDelta / baseline.revenue.total * 100 else 0
            compliance :=
              if 0 < baseline.compliance.overall
              then complianceDelta / baseline.compliance.overall * 100 else 0
            workload :=
              if 0 < baseline.workload.totalHours
              then workloadDelta / baseline.workload.totalHours * 100 else 0
            satisfaction :=
              if 0 < baseline.satisfaction.overall
              then satisfactionDelta / baseline.satisfaction.overall * 100 else 0 } }) }

-- ============================================
-- CONCRETE INPUTS USED IN THE THEOREMS
-- ============================================

/-- Point update of a parameter map. -/
def setParam (p : Params) (k : String) (v : Option ℚ) : Params :=
  fun key => if key = k then v else p key

/-- The empty parameter map. -/
def emptyParams : Params := fun _ => none

/-- The all-zero random stream (every `Math.random()` draw is `0`). -/
def rand0 : ℕ → ℚ := fun _ => 0

/-- The three-contribution sequence of the aggregation test
`[{fineAmount:100}, {fineAmount:200}, {fineAmount:300}]`, no overrides. -/
def aggTestContributions : List Contribution :=
  [⟨[("fineAmount", 100)], none⟩,
   ⟨[("fineAmount", 200)], none⟩,
   ⟨[("fineAmount", 300)], none⟩]

/-- An override followed by a later ordinary value for the same key:
contribution 1 overrides `fineAmount` to `100`, contribution 2 supplies
the ordinary value `200`. -/
def overrideThenValue : List Contribution :=
  [⟨[], some [("fineAmount", 100)]⟩,
   ⟨[("fineAmount", 200)], none⟩]

/-- A contribution whose override map sets `fineAmount` to `100` while
its ordinary parameters set it to `200`. -/
def overridingContribution : Contribution :=
  ⟨[("fineAmount", 200)], some [("fineAmount", 100)]⟩

/-- The single-scenario revenue test input of the specification. -/
def revenueScenarioInput : SimulationInput :=
  { policies :=
      [⟨[("fineAmount", 150), ("inspectionFrequency", 4), ("feeAmount", 50),
         ("taxRate", 5/2), ("permitDuration", 365)], none⟩]
    citizenGroups := [⟨"group1", 1000, 4/5, some ⟨some 30000, some (3/10)⟩, none⟩]
    businessCategories := []
    config := ⟨12, false, 0, 0⟩ }

/-- A 13-month seasonal configuration (exceeds the 12-entry table). -/
def thirteenMonthInput : SimulationInput :=
  { policies := [], citizenGroups := [], businessCategories := []
    config := ⟨13, true, 0, 0⟩ }

/-- A parameter map whose only entry is `permitDuration = 0`. -/
def zeroPermitParams : Params := setParam emptyParams "permitDuration" (some 0)

/-- An all-zero metrics value. -/
def zeroMetrics : SimulationMetrics :=
  { revenue := ⟨0, 0, 0, 0, 0, []⟩
    compliance := ⟨0, 0, 0, []⟩
    workload := ⟨0, 0, 0, 0, 0⟩
    satisfaction := ⟨0, 0, 0, []⟩
    monthlyProjections := [] }

/-- A baseline whose revenue total is negative. -/
def negativeBaseline : SimulationMetrics :=
  { zeroMetrics with revenue := { zeroMetrics.revenue with total := -100 } }

/-- A zero-valued scenario entry for the comparator. -/
def zeroScenarioEntry : ScenarioEntry := ⟨"s1", "scenario one", zeroMetrics⟩

/-- The comparator's output record for `zeroScenarioEntry` against the
all-zero baseline. -/
def zeroScenarioResult : ScenarioResult :=
  ⟨"s1", "scenario one", zeroMetrics, ⟨0, 0, 0, 0⟩, ⟨0, 0, 0, 0⟩⟩

/-- A one-group, one-business input used to witness the range invariant:
integral values so all hypotheses are decidable by kernel reduction. -/
def rangeWitnessInput : SimulationInput :=
  { policies := []
    citizenGroups := [⟨"g", 2, 1, none, none⟩]
    businessCategories := [⟨"b", 1, 1, none, none⟩]
    config := ⟨1, false, 0, 0⟩ }

-- ============================================
-- HELPER LEMMAS
-- ============================================

/-- Folding override entries over a map reads back as: the last override
entry for the key if there is one, else the underlying map's value. -/
theorem foldl_applyOverride_eq :
    ∀ (l : List (String × ℚ)) (a : Params) (k : String),
      (l.foldl applyOverride a) k = (lastEntry l k).elim (a k) some
  | [], _, _ => rfl
  | e :: l, a, k => by
    rw [List.foldl_cons, foldl_applyOverride_eq l _ k]
    cases h : lastEntry l k with
    | some v => simp [lastEntry, h]
    | none =>
      by_cases hek : e.1 = k
      · simp [lastEntry, h, applyOverride, hek]
      · have hke : ¬k = e.1 := fun h' => hek h'.symm
        simp [lastEntry, h, applyOverride, hek, hke]

/-- Reading any parameter through the falsy default `jsOr` cannot
distinguish `permitDuration = 0` from an absent `permitDuration`. -/
theorem setParam_read_eq (p : Params) (k : String) (d : ℚ) :
    jsOr (setParam p "permitDuration" (some 0) k) d
      = jsOr (setParam p "permitDuration" none k) d := by
  by_cases hk : k = "permitDuration"
  · subst hk; simp [setParam, jsOr]
  · simp [setParam, hk]

/-- Clamping a value into `[lo, hi]` lands in `[lo, hi]`. -/
theorem clamp_mem (lo hi t : ℚ) (h : lo ≤ hi) :
    lo ≤ min hi (max lo t) ∧ min hi (max lo t) ≤ hi :=
  ⟨le_min h (le_max_left lo t), min_le_left hi _⟩

/-- A nonnegatively weighted average of values in `[lo, hi]` lies in
`[lo, hi]` when the total weight is positive. -/
theorem weighted_div_mem {α : Type} (l : List α) (w x : α → ℚ) (lo hi : ℚ)
    (hw : ∀ a ∈ l, 0 ≤ w a) (hx : ∀ a ∈ l, lo ≤ x a ∧ x a ≤ hi)
    (hpos : 0 < (l.map w).sum) :
    lo ≤ (l.map (fun a => x a * w a)).sum / (l.map w).sum
    ∧ (l.map (fun a => x a * w a)).sum / (l.map w).sum ≤ hi := by
  have hlo : (l.map (fun a => lo * w a)).sum ≤ (l.map (fun a => x a * w a)).sum :=
    List.sum_le_sum (fun a ha => mul_le_mul_of_nonneg_right (hx a ha).1 (hw a ha))
  have hhi : (l.map (fun a => x a * w a)).sum ≤ (l.map (fun a => hi * w a)).sum :=
    List.sum_le_sum (fun a ha => mul_le_mul_of_nonneg_right (hx a ha).2 (hw a ha))
  rw [List.sum_map_mul_left] at hlo hhi
  exact ⟨(le_div_iff hpos).mpr hlo, (div_le_iff hpos).mpr hhi⟩

/-- The zero-guarded weighted average (the `total > 0 ? avg : dflt`
pattern of the engine) lies in `[lo, hi]` whenever the fallback does. -/
theorem guarded_avg_mem {α : Type} (l : List α) (w x : α → ℚ) (lo hi dflt : ℚ)
    (hw : ∀ a ∈ l, 0 ≤ w a) (hx : ∀ a ∈ l, lo ≤ x a ∧ x a ≤ hi)
    (hd : lo ≤ dflt ∧ dflt ≤ hi) :
    lo ≤ (if 0 < (l.map w).sum
          then (l.map (fun a => x a * w a)).sum / (l.map w).sum else dflt)
    ∧ (if 0 < (l.map w).sum
          then (l.map (fun a => x a * w a)).sum / (l.map w).sum else dflt) ≤ hi := by
  split_ifs with h
  · exact weighted_div_mem l w x lo hi hw hx h
  · exact hd

/-- Adjusted citizen compliance is clamped into `[0, 1]`. -/
theorem citizenAdjustedCompliance_mem (p : Params) (g : CitizenGroup) :
    0 ≤ citizenAdjustedCompliance p g ∧ citizenAdjustedCompliance p g ≤ 1 :=
  clamp_mem 0 1 _ (by norm_num)

/-- Adjusted business compliance is clamped into `[0, 1]`. -/
theorem businessAdjustedCompliance_mem (p : Params) (b : BusinessCategory) :
    0 ≤ businessAdjustedCompliance p b ∧ businessAdjustedCompliance p b ≤ 1 :=
  clamp_mem 0 1 _ (by norm_num)

/-- Citizen-group satisfaction is clamped into `[0, 100]`. -/
theorem citizenSatisfaction_mem (p : Params) (g : CitizenGroup) :
    0 ≤ citizenSatisfaction p g ∧ citizenSatisfaction p g ≤ 100 :=
  clamp_mem 0 100 _ (by norm_num)

/-- Business-category satisfaction is clamped into `[0, 100]`. -/
theorem businessSatisfaction_mem (p : Params) (b : BusinessCategory) :
    0 ≤ businessSatisfaction p b ∧ businessSatisfaction p b ≤ 100 :=
  clamp_mem 0 100 _ (by norm_num)

/-- All four compliance outputs lie in `[0, 1]` for nonnegative weights. -/
theorem complianceCore_mem (p : Params) (gs : List CitizenGroup)
    (bs : List BusinessCategory)
    (hg : ∀ g ∈ gs, 0 ≤ g.population) (hb : ∀ b ∈ bs, 0 ≤ b.count) :
    (0 ≤ (complianceCore p gs bs).citizen ∧ (complianceCore p gs bs).citizen ≤ 1)
    ∧ (0 ≤ (complianceCore p gs bs).business ∧ (complianceCore p gs bs).business ≤ 1)
    ∧ (0 ≤ (complianceCore p gs bs).overall ∧ (complianceCore p gs bs).overall ≤ 1)
    ∧ (∀ e ∈ (complianceCore p gs bs).byCategory, 0 ≤ e.2 ∧ e.2 ≤ 1) := by
  have hc : 0 ≤ (complianceCore p gs bs).citizen
      ∧ (complianceCore p gs bs).citizen ≤ 1 :=
    guarded_avg_mem gs (fun g => g.population)
      (fun g => citizenAdjustedCompliance p g) 0 1 0 hg
      (fun g _ => citizenAdjustedCompliance_mem p g) (by norm_num)
  have hbz : 0 ≤ (complianceCore p gs bs).business
      ∧ (complianceCore p gs bs).business ≤ 1 :=
    guarded_avg_mem bs (fun b => b.count)
      (fun b => businessAdjustedCompliance p b) 0 1 0 hb
      (fun b _ => businessAdjustedCompliance_mem p b) (by norm_num)
  refine ⟨hc, hbz, ?_, ?_⟩
  · have ho : (complianceCore p gs bs).overall
        = ((complianceCore p gs bs).citizen + (complianceCore p gs bs).business) / 2 := rfl
    rw [ho]
    constructor <;> linarith [hc.1, hc.2, hbz.1, hbz.2]
  · intro e he
    have hcat : (complianceCore p gs bs).byCategory
        = gs.map (fun g => (g.name, citizenAdjustedCompliance p g))
          ++ bs.map (fun b => (b.name, businessAdjustedCompliance p b)) := rfl
    rw [hcat] at he
    rcases List.mem_append.mp he with h | h
    · obtain ⟨g, _, rfl⟩ := List.mem_map.mp h
      exact citizenAdjustedCompliance_mem p g
    · obtain ⟨b, _, rfl⟩ := List.mem_map.mp h
      exact businessAdjustedCompliance_mem p b

/-- All four satisfaction outputs lie in `[0, 100]` for nonnegative
weights (the empty-segment fallback is the base value `70`). -/
theorem satisfactionCore_mem (p : Params) (gs : List CitizenGroup)
    (bs : List BusinessCategory)
    (hg : ∀ g ∈ gs, 0 ≤ g.population) (hb : ∀ b ∈ bs, 0 ≤ b.count) :
    (0 ≤ (satisfactionCore p gs bs).citizen ∧ (satisfactionCore p gs bs).citizen ≤ 100)
    ∧ (0 ≤ (satisfactionCore p gs bs).business ∧ (satisfactionCore p gs bs).business ≤ 100)
    ∧ (0 ≤ (satisfactionCore p gs bs).overall ∧ (satisfactionCore p gs bs).overall ≤ 100)
    ∧ (∀ e ∈ (satisfactionCore p gs bs).byDemographic, 0 ≤ e.2 ∧ e.2 ≤ 100) := by
  have hc : 0 ≤ (satisfactionCore p gs bs).citizen
      ∧ (satisfactionCore p gs bs).citizen ≤ 100 :=
    guarded_avg_mem gs (fun g => g.population)
      (fun g => citizenSatisfaction p g) 0 100 70 hg
      (fun g _ => citizenSatisfaction_mem p g) (by norm_num)
  have hbz : 0 ≤ (satisfactionCore p gs bs).business
      ∧ (satisfactionCore p gs bs).business ≤ 100 :=
    guarded_avg_mem bs (fun b => b.count)
      (fun b => businessSatisfaction p b) 0 100 70 hb
      (fun b _ => businessSatisfaction_mem p b) (by norm_num)
  refine ⟨hc, hbz, ?_, ?_⟩
  · have ho : (satisfactionCore p gs bs).overall
        = ((satisfactionCore p gs bs).citizen + (satisfactionCore p gs bs).business) / 2 := rfl
    rw [ho]
    constructor <;> linarith [hc.1, hc.2, hbz.1, hbz.2]
  · intro e he
    have hcat : (satisfactionCore p gs bs).byDemographic
        = gs.map (fun g => (g.name, citizenSatisfaction p g))
          ++ bs.map (fun b => (b.name, businessSatisfaction p b)) := rfl
    rw [hcat] at he
    rcases List.mem_append.mp he with h | h
    · obtain ⟨g, _, rfl⟩ := List.mem_map.mp h
      exact citizenSatisfaction_mem p g
    · obtain ⟨b, _, rfl⟩ := List.mem_map.mp h
      exact businessSatisfaction_mem p b

-- ============================================
-- CLAIM THEOREMS
-- ============================================

/-- C2 counterexample: the aggregation of `[{fineAmount:100},
{fineAmount:200}, {fineAmount:300}]` yields `225`, not the value `187.5`
asserted by the claim. -/
theorem aggregate_not_187_point_5 :
    aggregateParameters aggTestContributions "fineAmount" = some 225
    ∧ (225 : ℚ) ≠ 187.5 := by
  constructor
  · simp [aggregateParameters, aggTestContributions, applyContribution,
      applyEntry, applyOverride]
    norm_num
  · norm_num

/-- C2 (amended): aggregating `[{fineAmount:100}, {fineAmount:200},
{fineAmount:300}]` (no overrides) yields the pairwise running average
`((100+200)/2 + 300)/2 = 225`, not the true mean `200`. -/
theorem aggregate_running_average :
    aggregateParameters aggTestContributions "fineAmount"
      = some (((100 + 200) / 2 + 300) / 2)
    ∧ (((100 : ℚ) + 200) / 2 + 300) / 2 = 225
    ∧ (225 : ℚ) ≠ 200 := by
  refine ⟨?_, by norm_num, by norm_num⟩
  simp [aggregateParameters, aggTestContributions, applyContribution,
    applyEntry, applyOverride]

/-- C3 counterexample: in `overrideThenValue` the only contribution whose
overrides contain `fineAmount` sets it to `100`, yet the aggregate is
`150`: the override was averaged with the later contribution's ordinary
value `200`, so overrides are not applied after all folding. -/
theorem override_averaged_with_later_value :
    overrideThenValue.map (fun c => lastOverride c "fineAmount")
      = [some 100, none]
    ∧ aggregateParameters overrideThenValue "fineAmount" = some 150
    ∧ (150 : ℚ) ≠ 100 := by
  refine ⟨by rfl, ?_, by norm_num⟩
  simp [aggregateParameters, overrideThenValue, applyContribution,
    applyEntry, applyOverride]
  norm_num

/-- C3 (amended): each contribution's overrides are applied immediately
after that contribution's own parameters, as unconditional writes; hence
for any key present in the **last** contribution's overrides the final
aggregated value equals that override value (while an earlier
contribution's override can still be averaged with a later contribution's
ordinary value). -/
theorem last_contribution_override_wins (cs : List Contribution)
    (c : Contribution) (k : String) (v : ℚ)
    (h : lastOverride c k = some v) :
    aggregateParameters (cs ++ [c]) k = some v := by
  have hfold : aggregateParameters (cs ++ [c])
      = applyContribution (aggregateParameters cs) c := by
    simp [aggregateParameters, List.foldl_append]
  rw [hfold]
  show ((c.overrides.getD []).foldl applyOverride
    (c.params.foldl applyEntry (aggregateParameters cs))) k = some v
  rw [foldl_applyOverride_eq]
  rw [lastOverride] at h
  rw [h]
  rfl

/-- Witness for C3 (amended): a single contribution overriding
`fineAmount` to `100` against the ordinary value `200` aggregates to
`100`. -/
theorem last_contribution_override_wins_witness :
    aggregateParameters [overridingContribution] "fineAmount" = some 100 :=
  last_contribution_override_wins [] overridingContribution "fineAmount" 100 (by rfl)

/-- C5: in every run the revenue total equals the sum of the four revenue
components, and the fee component is identically zero. -/
theorem revenue_total_is_component_sum (input : SimulationInput) (rand : ℕ → ℚ) :
    (runEngine input rand).revenue.total
      = (runEngine input rand).revenue.fromFines
        + (runEngine input rand).revenue.fromPermits
        + (runEngine input rand).revenue.fromTaxes
        + (runEngine input rand).revenue.fromFees
    ∧ (runEngine input rand).revenue.fromFees = 0 := by
  have h : (runEngine input rand).revenue
      = revenueCore (aggregateParameters input.policies)
          input.citizenGroups input.businessCategories input.config := rfl
  rw [h]
  constructor
  · simp only [revenueCore]; ring
  · simp only [revenueCore]; ring

/-- C6: the single-scenario revenue stage reproduces the expected values:
detection rate `0.46`, fines `13800`, permits `15000`, taxes `750000`,
total `778800`, growth factor `1`. -/
theorem revenue_scenario_values :
    getDetectionRate (aggregateParameters revenueScenarioInput.policies) = 46/100
    ∧ (calculateRevenue revenueScenarioInput).fromFines = 13800
    ∧ (calculateRevenue revenueScenarioInput).fromPermits = 15000
    ∧ (calculateRevenue revenueScenarioInput).fromTaxes = 750000
    ∧ (calculateRevenue revenueScenarioInput).total = 778800
    ∧ growthFactor revenueScenarioInput.config = 1 := by
  refine ⟨?_, ?_, ?_, ?_, ?_, ?_⟩ <;>
    · simp [calculateRevenue, revenueCore, revenueScenarioInput,
        aggregateParameters, applyContribution, applyEntry, applyOverride,
        getDetectionRate, getPermitEligibility, getAverageIncome, jsOr,
        growthFactor, min_def]
      all_goals norm_num

/-- C8 counterexample: with `permitDuration = 0` the guarded embedding of
`12 / ((permitDuration || 365) / 30)` does **not** reach its error
branch: the falsy default substitutes `365` and the result is
`12 / (365/30) = 72/73`. -/
theorem zero_permit_duration_no_div_error :
    permitRenewalsPerYear zeroPermitParams ≠ none
    ∧ permitRenewalsPerYear zeroPermitParams = some (72/73) := by
  constructor <;>
    · simp [permitRenewalsPerYear, zeroPermitParams, setParam, emptyParams, jsOr]
      all_goals norm_num

/-- C8 (amended): the permit-processing division is protected by the falsy
default `permitDuration || 365`: the effective duration is never zero, so
the division-by-zero branch is unreachable for every parameter map (a
`permitDuration` of `0` behaves exactly as `365`). -/
theorem permit_renewals_never_error (p : Params) :
    jsOr (p "permitDuration") 365 ≠ 0
    ∧ permitRenewalsPerYear p
        = some (12 / (jsOr (p "permitDuration") 365 / 30)) := by
  have hd : jsOr (p "permitDuration") 365 ≠ 0 := by
    unfold jsOr
    cases hp : p "permitDuration" with
    | none => norm_num
    | some x => by_cases hx : x = 0 <;> simp [hx]
  refine ⟨hd, ?_⟩
  unfold permitRenewalsPerYear
  rw [if_neg (div_ne_zero hd (by norm_num))]

/-- C7 counterexample: with a baseline revenue total of `-100` and a
scenario value of `0`, the delta is `100` and the claim's nonzero branch
demands `100 / (-100) * 100 = -100`, but the comparator returns `0`
(the source tests `baseline > 0`, not `baseline != 0`). -/
theorem negative_baseline_percent_change_zero :
    (compareScenarios negativeBaseline [zeroScenarioEntry]).scenarios.map
        (fun r => r.delta.revenue) = [100]
    ∧ (compareScenarios negativeBaseline [zeroScenarioEntry]).scenarios.map
        (fun r => r.percentChange.revenue) = [0]
    ∧ (100 : ℚ) / (-100) * 100 = -100
    ∧ (0 : ℚ) ≠ -100 := by
  refine ⟨?_, ?_, by norm_num, by norm_num⟩ <;>
    simp [compareScenarios, negativeBaseline, zeroScenarioEntry, zeroMetrics]

/-- C7 (amended): for every baseline and scenario, the delta of each of
the four top-level KPIs is scenario minus baseline, and the percent
change is `delta / baseline * 100` when the baseline value is strictly
positive and `0` when the baseline value is zero **or negative**. -/
theorem compare_scenarios_delta_percent (b : SimulationMetrics)
    (scs : List ScenarioEntry) (i : ℕ) (sc : ScenarioEntry) (r : ScenarioResult)
    (h1 : scs.get? i = some sc)
    (h2 : (compareScenarios b scs).scenarios.get? i = some r) :
    (r.delta.revenue = sc.metrics.revenue.total - b.revenue.total
      ∧ (0 < b.revenue.total → r.percentChange.revenue
          = (sc.metrics.revenue.total - b.revenue.total) / b.revenue.total * 100)
      ∧ (b.revenue.total ≤ 0 → r.percentChange.revenue = 0))
    ∧ (r.delta.compliance = sc.metrics.compliance.overall - b.compliance.overall
      ∧ (0 < b.compliance.overall → r.percentChange.compliance
          = (sc.metrics.compliance.overall - b.compliance.overall) / b.compliance.overall * 100)
      ∧ (b.compliance.overall ≤ 0 → r.percentChange.compliance = 0))
    ∧ (r.delta.workload = sc.metrics.workload.totalHours - b.workload.totalHours
      ∧ (0 < b.workload.totalHours → r.percentChange.workload
          = (sc.metrics.workload.totalHours - b.workload.totalHours) / b.workload.totalHours * 100)
      ∧ (b.workload.totalHours ≤ 0 → r.percentChange.workload = 0))
    ∧ (r.delta.satisfaction = sc.metrics.satisfaction.overall - b.satisfaction.overall
      ∧ (0 < b.satisfaction.overall → r.percentChange.satisfaction
          = (sc.metrics.satisfaction.overall - b.satisfaction.overall) / b.satisfaction.overall * 100)
      ∧ (b.satisfaction.overall ≤ 0 → r.percentChange.satisfaction = 0)) := by
  simp only [compareScenarios] at h2
  rw [List.get?_map, h1, Option.map_some'] at h2
  have hr := Option.some.inj h2
  subst hr
  refine ⟨⟨rfl, fun h => ?_, fun h => ?_⟩, ⟨rfl, fun h => ?_, fun h => ?_⟩,
    ⟨rfl, fun h => ?_, fun h => ?_⟩, ⟨rfl, fun h => ?_, fun h => ?_⟩⟩ <;>
    first
      | (exact if_pos h)
      | (exact if_neg (not_lt.mpr h))

/-- Witness for C7 (amended): comparing a zero scenario against the
all-zero baseline gives zero deltas and zero percent changes. -/
theorem compare_scenarios_delta_percent_witness :
    (zeroScenarioResult.delta.revenue
        = zeroScenarioEntry.metrics.revenue.total - zeroMetrics.revenue.total
      ∧ (0 < zeroMetrics.revenue.total → zeroScenarioResult.percentChange.revenue
          = (zeroScenarioEntry.metrics.revenue.total - zeroMetrics.revenue.total)
              / zeroMetrics.revenue.total * 100)
      ∧ (zeroMetrics.revenue.total ≤ 0 → zeroScenarioResult.percentChange.revenue = 0))
    ∧ (zeroScenarioResult.delta.compliance
        = zeroScenarioEntry.metrics.compliance.overall - zeroMetrics.compliance.overall
      ∧ (0 < zeroMetrics.compliance.overall → zeroScenarioResult.percentChange.compliance
          = (zeroScenarioEntry.metrics.compliance.overall - zeroMetrics.compliance.overall)
              / zeroMetrics.compliance.overall * 100)
      ∧ (zeroMetrics.compliance.overall ≤ 0 → zeroScenarioResult.percentChange.compliance = 0))
    ∧ (zeroScenarioResult.delta.workload
        = zeroScenarioEntry.metrics.workload.totalHours - zeroMetrics.workload.totalHours
      ∧ (0 < zeroMetrics.workload.totalHours → zeroScenarioResult.percentChange.workload
          = (zeroScenarioEntry.metrics.workload.totalHours - zeroMetrics.workload.totalHours)
              / zeroMetrics.workload.totalHours * 100)
      ∧ (zeroMetrics.workload.totalHours ≤ 0 → zeroScenarioResult.percentChange.workload = 0))
    ∧ (zeroScenarioResult.delta.satisfaction
        = zeroScenarioEntry.metrics.satisfaction.overall - zeroMetrics.satisfaction.overall
      ∧ (0 < zeroMetrics.satisfaction.overall → zeroScenarioResult.percentChange.satisfaction
          = (zeroScenarioEntry.metrics.satisfaction.overall - zeroMetrics.satisfaction.overall)
              / zeroMetrics.satisfaction.overall * 100)
      ∧ (zeroMetrics.satisfaction.overall ≤ 0 → zeroScenarioResult.percentChange.satisfaction = 0)) :=
  compare_scenarios_delta_percent zeroMetrics [zeroScenarioEntry] 0
    zeroScenarioEntry zeroScenarioResult (by rfl)
    (by simp [compareScenarios, zeroScenarioEntry, zeroScenarioResult, zeroMetrics])

/-- C4 counterexample: with a 13-month horizon and seasonality on, the
claim demands the factor of month 13 to be table entry `(13-1) % 12 = 0`
(value `0.85`); the code's unwrapped lookup `seasonality[12]` is out of
bounds instead (`undefined`), and the 13th monthly revenue projection is
accordingly undefined. -/
theorem season_factor_no_wrap :
    seasonFactor thirteenMonthInput.config 13 = none
    ∧ ((runEngine thirteenMonthInput rand0).monthlyProjections.map
        (fun p => p.revenue)).get? 12 = some none
    ∧ getSeasonalityFactors.get? ((13 - 1) % 12) = some (85/100) := by
  refine ⟨rfl, ?_, rfl⟩
  simp only [runEngine, generateMonthlyProjections, thirteenMonthInput, List.map_map]
  rw [List.get?_map, List.get?_range (by norm_num)]
  simp [seasonFactor, getSeasonalityFactors]

/-- C4 (amended): for months `1..12` the seasonal factor is table entry
`month - 1` (which coincides with `(month-1) mod 12`); for a month
beyond 12 with seasonality on the lookup is out of bounds and yields no
value (no cyclic wrap); with seasonality off the factor is `1`. -/
theorem season_factor_table_indexing (cfg : SimulationConfig) (m : ℕ)
    (h1 : 1 ≤ m) :
    seasonFactor cfg m
      = if cfg.includeSeasonality
        then (if m ≤ 12 then getSeasonalityFactors.get? ((m - 1) % 12) else none)
        else some 1 := by
  unfold seasonFactor
  cases hs : cfg.includeSeasonality with
  | false => simp
  | true =>
    simp only [if_true]
    by_cases hm : m ≤ 12
    · rw [if_pos hm]
      have hlt : m - 1 < 12 := by omega
      rw [Nat.mod_eq_of_lt hlt]
    · rw [if_neg hm]
      refine List.get?_eq_none.mpr ?_
      have : getSeasonalityFactors.length = 12 := by rfl
      omega

/-- Witness for C4 (amended): month 5 with seasonality on yields table
entry 4, the factor `1.08`. -/
theorem season_factor_table_indexing_witness :
    seasonFactor ⟨12, true, 0, 0⟩ 5 = some (108/100) := by
  have h := season_factor_table_indexing ⟨12, true, 0, 0⟩ 5 (by norm_num)
  simpa [getSeasonalityFactors] using h

/-- C9: two runs on the same input agree on all four aggregate KPI
blocks (including the breakdown maps) and on the month, revenue and
workload fields of every monthly projection entry; only the jittered
compliance and satisfaction projection fields can differ between the
random streams. -/
theorem runs_agree_except_jitter (input : SimulationInput) (r1 r2 : ℕ → ℚ) :
    (runEngine input r1).revenue = (runEngine input r2).revenue
    ∧ (runEngine input r1).compliance = (runEngine input r2).compliance
    ∧ (runEngine input r1).workload = (runEngine input r2).workload
    ∧ (runEngine input r1).satisfaction = (runEngine input r2).satisfaction
    ∧ (runEngine input r1).monthlyProjections.map
        (fun p => (p.month, p.revenue, p.workload))
      = (runEngine input r2).monthlyProjections.map
        (fun p => (p.month, p.revenue, p.workload)) := by
  refine ⟨rfl, rfl, rfl, rfl, ?_⟩
  simp only [runEngine, generateMonthlyProjections, List.map_map]
  apply List.map_congr_left
  intro i _
  rfl

/-- C10: a `0` supplied for an optional field is treated exactly like an
absent field (JavaScript `||` defaulting on a falsy value):
`permitEligibility = 0` gives `0.3`, `averageIncome = 0` gives `30000`,
`incomeSensitivity = 0` and `policyAwareness = 0` behave as the default
`1.0`, and `permitDuration = 0` behaves as `365` throughout the
compliance, satisfaction and workload models. -/
theorem falsy_zero_defaults :
    (∀ (g : CitizenGroup) (d : Demographics),
        getPermitEligibility
            { g with demographics := some { d with permitEligibility := some 0 } } = 3/10
        ∧ getPermitEligibility
            { g with demographics := some { d with permitEligibility := none } } = 3/10)
    ∧ (∀ (g : CitizenGroup) (d : Demographics),
        getAverageIncome
            { g with demographics := some { d with averageIncome := some 0 } } = 30000
        ∧ getAverageIncome
            { g with demographics := some { d with averageIncome := none } } = 30000)
    ∧ (∀ (p : Params) (g : CitizenGroup) (br : BehaviorRules),
        citizenSatisfaction p
            { g with behaviorRules := some { br with incomeSensitivity := some 0 } }
          = citizenSatisfaction p
            { g with behaviorRules := some { br with incomeSensitivity := none } }
        ∧ citizenSatisfaction p
            { g with behaviorRules := some { br with policyAwareness := some 0 } }
          = citizenSatisfaction p
            { g with behaviorRules := some { br with policyAwareness := none } })
    ∧ (∀ (p : Params) (b : BusinessCategory) (br : BehaviorRules),
        businessSatisfaction p
            { b with behaviorRules := some { br with policyAwareness := some 0 } }
          = businessSatisfaction p
            { b with behaviorRules := some { br with policyAwareness := none } })
    ∧ (∀ (p : Params) (gs : List CitizenGroup) (bs : List BusinessCategory),
        complianceCore (setParam p "permitDuration" (some 0)) gs bs
          = complianceCore (setParam p "permitDuration" none) gs bs)
    ∧ (∀ (p : Params) (gs : List CitizenGroup) (bs : List BusinessCategory),
        satisfactionCore (setParam p "permitDuration" (some 0)) gs bs
          = satisfactionCore (setParam p "permitDuration" none) gs bs)
    ∧ (∀ (p : Params) (gs : List CitizenGroup) (bs : List BusinessCategory)
        (cfg : SimulationConfig) (oc : ℚ),
        workloadCore (setParam p "permitDuration" (some 0)) gs bs cfg oc
          = workloadCore (setParam p "permitDuration" none) gs bs cfg oc) := by
  refine ⟨?_, ?_, ?_, ?_, ?_, ?_, ?_⟩
  · intro g d; constructor <;> simp [getPermitEligibility, jsOr]
  · intro g d; constructor <;> simp [getAverageIncome, jsOr]
  · intro p g br; constructor <;> simp [citizenSatisfaction, jsOr]
  · intro p b br; simp [businessSatisfaction, satSizeModifier, jsOr]
  · intro p gs bs
    simp only [complianceCore, citizenAdjustedCompliance,
      businessAdjustedCompliance, setParam_read_eq]
  · intro p gs bs
    simp only [satisfactionCore, citizenSatisfaction, businessSatisfaction,
      fineImpactSat, permitImpactSat, taxImpactSat, graceImpactSat,
      setParam_read_eq]
  · intro p gs bs cfg oc
    simp only [workloadCore, setParam_read_eq]

/-- C1: for every input with nonnegative populations and counts and
baseline compliance rates in `[0,1]`, every compliance output of a run
(overall, citizen, business, and each byCategory entry) lies in `[0,1]`
and every satisfaction output (overall, citizen, business, and each
byDemographic entry) lies in `[0,100]`. -/
theorem compliance_satisfaction_in_range (input : SimulationInput) (rand : ℕ → ℚ)
    (hg : ∀ g ∈ input.citizenGroups,
        0 ≤ g.population ∧ 0 ≤ g.complianceRate ∧ g.complianceRate ≤ 1)
    (hb : ∀ b ∈ input.businessCategories,
        0 ≤ b.count ∧ 0 ≤ b.complianceRate ∧ b.complianceRate ≤ 1) :
    (0 ≤ (runEngine input rand).compliance.overall
      ∧ (runEngine input rand).compliance.overall ≤ 1)
    ∧ (0 ≤ (runEngine input rand).compliance.citizen
      ∧ (runEngine input rand).compliance.citizen ≤ 1)
    ∧ (0 ≤ (runEngine input rand).compliance.business
      ∧ (runEngine input rand).compliance.business ≤ 1)
    ∧ (∀ e ∈ (runEngine input rand).compliance.byCategory, 0 ≤ e.2 ∧ e.2 ≤ 1)
    ∧ (0 ≤ (runEngine input rand).satisfaction.overall
      ∧ (runEngine input rand).satisfaction.overall ≤ 100)
    ∧ (0 ≤ (runEngine input rand).satisfaction.citizen
      ∧ (runEngine input rand).satisfaction.citizen ≤ 100)
    ∧ (0 ≤ (runEngine input rand).satisfaction.business
      ∧ (runEngine input rand).satisfaction.business ≤ 100)
    ∧ (∀ e ∈ (runEngine input rand).satisfaction.byDemographic,
        0 ≤ e.2 ∧ e.2 ≤ 100) := by
  have hg' : ∀ g ∈ input.citizenGroups, 0 ≤ g.population :=
    fun g h => (hg g h).1
  have hb' : ∀ b ∈ input.businessCategories, 0 ≤ b.count :=
    fun b h => (hb b h).1
  have hcomp := complianceCore_mem (aggregateParameters input.policies)
    input.citizenGroups input.businessCategories hg' hb'
  have hsat := satisfactionCore_mem (aggregateParameters input.policies)
    input.citizenGroups input.businessCategories hg' hb'
  have e1 : (runEngine input rand).compliance
      = complianceCore (aggregateParameters input.policies)
          input.citizenGroups input.businessCategories := rfl
  have e2 : (runEngine input rand).satisfaction
      = satisfactionCore (aggregateParameters input.policies)
          input.citizenGroups input.businessCategories := rfl
  rw [e1, e2]
  exact ⟨hcomp.2.2.1, hcomp.1, hcomp.2.1, hcomp.2.2.2,
    hsat.2.2.1, hsat.1, hsat.2.1, hsat.2.2.2⟩

/-- Witness for C1: the one-group, one-business input satisfies the
hypotheses and its run satisfies all the range bounds. -/
theorem compliance_satisfaction_in_range_witness :
    ((∀ g ∈ rangeWitnessInput.citizenGroups,
        0 ≤ g.population ∧ 0 ≤ g.complianceRate ∧ g.complianceRate ≤ 1)
      ∧ (∀ b ∈ rangeWitnessInput.businessCategories,
        0 ≤ b.count ∧ 0 ≤ b.complianceRate ∧ b.complianceRate ≤ 1))
    ∧ ((0 ≤ (runEngine rangeWitnessInput rand0).compliance.overall
        ∧ (runEngine rangeWitnessInput rand0).compliance.overall ≤ 1)
      ∧ (0 ≤ (runEngine rangeWitnessInput rand0).compliance.citizen
        ∧ (runEngine rangeWitnessInput rand0).compliance.citizen ≤ 1)
      ∧ (0 ≤ (runEngine rangeWitnessInput rand0).compliance.business
        ∧ (runEngine rangeWitnessInput rand0).compliance.business ≤ 1)
      ∧ (∀ e ∈ (runEngine rangeWitnessInput rand0).compliance.byCategory,
          0 ≤ e.2 ∧ e.2 ≤ 1)
      ∧ (0 ≤ (runEngine rangeWitnessInput rand0).satisfaction.overall
        ∧ (runEngine rangeWitnessInput rand0).satisfaction.overall ≤ 100)
      ∧ (0 ≤ (runEngine rangeWitnessInput rand0).satisfaction.citizen
        ∧ (runEngine rangeWitnessInput rand0).satisfaction.citizen ≤ 100)
      ∧ (0 ≤ (runEngine rangeWitnessInput rand0).satisfaction.business
        ∧ (runEngine rangeWitnessInput rand0).satisfaction.business ≤ 100)
      ∧ (∀ e ∈ (runEngine rangeWitnessInput rand0).satisfaction.byDemographic,
          0 ≤ e.2 ∧ e.2 ≤ 100)) :=
  ⟨⟨by decide, by decide⟩,
    compliance_satisfaction_in_range rangeWitnessInput rand0
      (by decide) (by decide)⟩

end PolicySandbox
